import Mathlib

/-
Verification of the Vectrude3D boolean-solid core.

Shallow embedding of:
  * src/types.ts            (BaseShape, AppState)
  * src/services/csgService.ts  (performCSG: tessellation, transforms, fold, recentring)
  * src/store.ts            (performBoolean)
  * src/unnamed/part_000 and part_001 (the two ShapeRenderer revisions: display geometry)

Numbers are modelled as real numbers.  The third-party mesh-boolean library
(three-bvh-csg's Evaluator.evaluate) is external to the repository and is kept
abstract: it is a parameter `e : Brush → Brush → CSGMode → Solid` returning the
baked world-space triangle soup of the result brush (the result brush itself has
the identity matrix).  A JavaScript exception (the TypeError thrown when a
polygon's point list is present but empty) is modelled as `Except.error ()`;
the explicit `return null` of performCSG is `Except.ok none`.
The fresh id produced by uuidv4() is passed in as an explicit parameter `fid`.
-/

noncomputable section

namespace Vectrude

/-- 2D point of a profile contour. -/
abbrev Point2 : Type := ℝ × ℝ

/-- 3D vector / vertex position. -/
abbrev Vec3 : Type := ℝ × ℝ × ℝ

/-- A baked triangulated geometry, as its list of vertex positions
(the BufferGeometry position attribute; three-bvh-csg output is a non-indexed
triangle soup, so zero triangles is exactly the empty vertex list). -/
abbrev Solid : Type := List Vec3

/-- src/types.ts: `export type ShapeType = 'rectangle' | 'circle' | 'polygon' | 'custom'`. -/
inductive ShapeType where
  | rectangle : ShapeType
  | circle : ShapeType
  | polygon : ShapeType
  | custom : ShapeType
deriving DecidableEq

/-- The three operation strings accepted by performCSG / performBoolean. -/
inductive Op where
  | union : Op
  | subtract : Op
  | intersect : Op
deriving DecidableEq

/-- The template literal piece in csgService.ts line 103. -/
def opName : Op → String
  | .union => "union"
  | .subtract => "subtract"
  | .intersect => "intersect"

/-- The three-bvh-csg operation constants imported at csgService.ts line 2. -/
inductive CSGMode where
  | ADDITION : CSGMode
  | SUBTRACTION : CSGMode
  | INTERSECTION : CSGMode
deriving DecidableEq

/-- csgService.ts lines 82-85: the if/else chain mapping the operation string to
the library constant (exhaustive over the union type). -/
def modeOf : Op → CSGMode
  | .union => .ADDITION
  | .subtract => .SUBTRACTION
  | .intersect => .INTERSECTION

/-- src/types.ts `BaseShape`.  Optional fields are `Option`; `geometryData`
(serialized JSON of a BufferGeometry) is modelled as the parsed vertex list it
round-trips to through BufferGeometryLoader.parse / toJSON. -/
structure BaseShape where
  id : String
  name : String
  type : ShapeType
  position : Vec3
  rotation : Vec3
  color : String
  extrusionDepth : ℝ
  visible : Bool
  points : Option (List Point2)
  width : Option ℝ
  height : Option ℝ
  radius : Option ℝ
  geometryData : Option Solid

/- ------------------------------------------------------------------ -/
/- Transform layer (csgService.ts lines 53-70, mirroring three.js).    -/
/- ------------------------------------------------------------------ -/

/-- A 4x4 matrix in row-major fields: `mRC` is row R, column C.
three.js stores elements column-major; `te[4*c + r]` is field `m(r)(c)` here. -/
structure Mat4 where
  m00 : ℝ
  m01 : ℝ
  m02 : ℝ
  m03 : ℝ
  m10 : ℝ
  m11 : ℝ
  m12 : ℝ
  m13 : ℝ
  m20 : ℝ
  m21 : ℝ
  m22 : ℝ
  m23 : ℝ
  m30 : ℝ
  m31 : ℝ
  m32 : ℝ
  m33 : ℝ

/-- The identity matrix (`new THREE.Matrix4()`). -/
def Mat4.one : Mat4 :=
  ⟨1, 0, 0, 0,
   0, 1, 0, 0,
   0, 0, 1, 0,
   0, 0, 0, 1⟩

/-- three.js Matrix4.multiplyMatrices: entrywise product sums, `(a.mul b) v = a (b v)`. -/
def Mat4.mul (a b : Mat4) : Mat4 where
  m00 := a.m00 * b.m00 + a.m01 * b.m10 + a.m02 * b.m20 + a.m03 * b.m30
  m01 := a.m00 * b.m01 + a.m01 * b.m11 + a.m02 * b.m21 + a.m03 * b.m31
  m02 := a.m00 * b.m02 + a.m01 * b.m12 + a.m02 * b.m22 + a.m03 * b.m32
  m03 := a.m00 * b.m03 + a.m01 * b.m13 + a.m02 * b.m23 + a.m03 * b.m33
  m10 := a.m10 * b.m00 + a.m11 * b.m10 + a.m12 * b.m20 + a.m13 * b.m30
  m11 := a.m10 * b.m01 + a.m11 * b.m11 + a.m12 * b.m21 + a.m13 * b.m31
  m12 := a.m10 * b.m02 + a.m11 * b.m12 + a.m12 * b.m22 + a.m13 * b.m32
  m13 := a.m10 * b.m03 + a.m11 * b.m13 + a.m12 * b.m23 + a.m13 * b.m33
  m20 := a.m20 * b.m00 + a.m21 * b.m10 + a.m22 * b.m20 + a.m23 * b.m30
  m21 := a.m20 * b.m01 + a.m21 * b.m11 + a.m22 * b.m21 + a.m23 * b.m31
  m22 := a.m20 * b.m02 + a.m21 * b.m12 + a.m22 * b.m22 + a.m23 * b.m32
  m23 := a.m20 * b.m03 + a.m21 * b.m13 + a.m22 * b.m23 + a.m23 * b.m33
  m30 := a.m30 * b.m00 + a.m31 * b.m10 + a.m32 * b.m20 + a.m33 * b.m30
  m31 := a.m30 * b.m01 + a.m31 * b.m11 + a.m32 * b.m21 + a.m33 * b.m31
  m32 := a.m30 * b.m02 + a.m31 * b.m12 + a.m32 * b.m22 + a.m33 * b.m32
  m33 := a.m30 * b.m03 + a.m31 * b.m13 + a.m32 * b.m23 + a.m33 * b.m33

/-- three.js Matrix4.makeRotationX. -/
def makeRotationX (t : ℝ) : Mat4 :=
  ⟨1, 0, 0, 0,
   0, Real.cos t, -(Real.sin t), 0,
   0, Real.sin t, Real.cos t, 0,
   0, 0, 0, 1⟩

/-- csgService.ts lines 55-58: `new Matrix4()` then `makeRotationX(Math.PI/2)`
for every non-custom shape type; custom shapes keep the identity. -/
def inherentRot (t : ShapeType) : Mat4 :=
  if t ≠ ShapeType.custom then makeRotationX (Real.pi / 2) else Mat4.one

/-- three.js Quaternion (fields x, y, z, w). -/
structure Quat where
  x : ℝ
  y : ℝ
  z : ℝ
  w : ℝ

/-- three.js Quaternion.setFromEuler for the default rotation order XYZ
(the Euler at csgService.ts line 62 is constructed without an order argument). -/
def quatOfEuler (r : Vec3) : Quat :=
  let c1 := Real.cos (r.1 / 2)
  let c2 := Real.cos (r.2.1 / 2)
  let c3 := Real.cos (r.2.2 / 2)
  let s1 := Real.sin (r.1 / 2)
  let s2 := Real.sin (r.2.1 / 2)
  let s3 := Real.sin (r.2.2 / 2)
  ⟨s1 * c2 * c3 + c1 * s2 * s3,
   c1 * s2 * c3 - s1 * c2 * s3,
   c1 * c2 * s3 + s1 * s2 * c3,
   c1 * c2 * c3 - s1 * s2 * s3⟩

/-- three.js Matrix4.compose(position, quaternion, scale). -/
def composeMat (p : Vec3) (q : Quat) (s : Vec3) : Mat4 :=
  let x2 := q.x + q.x
  let y2 := q.y + q.y
  let z2 := q.z + q.z
  let xx := q.x * x2
  let xy := q.x * y2
  let xz := q.x * z2
  let yy := q.y * y2
  let yz := q.y * z2
  let zz := q.z * z2
  let wx := q.w * x2
  let wy := q.w * y2
  let wz := q.w * z2
  ⟨(1 - (yy + zz)) * s.1, (xy - wz) * s.2.1, (xz + wy) * s.2.2, p.1,
   (xy + wz) * s.1, (1 - (xx + zz)) * s.2.1, (yz - wx) * s.2.2, p.2.1,
   (xz - wy) * s.1, (yz + wx) * s.2.1, (1 - (xx + yy)) * s.2.2, p.2.2,
   0, 0, 0, 1⟩

/-- csgService.ts lines 61-68: the user transform composed from the shape's
Euler rotation (via quaternion) and position, with unit scale. -/
def userMatrix (sh : BaseShape) : Mat4 :=
  composeMat sh.position (quatOfEuler sh.rotation) (1, 1, 1)

/-- csgService.ts line 70: `brush.matrix.multiplyMatrices(userMatrix, inherentRot)` —
the resolved world matrix of a shape. -/
def worldMatrix (sh : BaseShape) : Mat4 :=
  (userMatrix sh).mul (inherentRot sh.type)

/-- three.js Vector3.applyMatrix4 (with the perspective w-division, which is by 1
for the affine matrices produced above). -/
def applyMat4 (m : Mat4) (v : Vec3) : Vec3 :=
  let w := 1 / (m.m30 * v.1 + m.m31 * v.2.1 + m.m32 * v.2.2 + m.m33)
  ((m.m00 * v.1 + m.m01 * v.2.1 + m.m02 * v.2.2 + m.m03) * w,
   (m.m10 * v.1 + m.m11 * v.2.1 + m.m12 * v.2.2 + m.m13) * w,
   (m.m20 * v.1 + m.m21 * v.2.1 + m.m22 * v.2.2 + m.m23) * w)

/- ------------------------------------------------------------------ -/
/- Profile tessellation (csgService.ts lines 18-40).                   -/
/- ------------------------------------------------------------------ -/

/-- csgService.ts lines 22-28: the rectangle contour
(-w/2,-h/2) → (w/2,-h/2) → (w/2,h/2) → (-w/2,h/2) → back to the start. -/
def rectContour (w h : ℝ) : List Point2 :=
  [(-w / 2, -h / 2), (w / 2, -h / 2), (w / 2, h / 2), (-w / 2, h / 2), (-w / 2, -h / 2)]

/-- Number of segments three.js samples a full-circle absarc with when the shape
is extruded: ExtrudeGeometry's default `curveSegments` is 12 and
CurvePath.getPoints uses `divisions * 2` for ellipse/arc curves. -/
def circleSegments : ℕ := 12 * 2

/-- csgService.ts line 30: `s.absarc(0, 0, radius, 0, 2π, false)` as sampled by
ExtrudeGeometry: points (r·cos θᵢ, r·sin θᵢ) at θᵢ = 2π·i/24, i = 0..24. -/
def circleContour (r : ℝ) : List Point2 :=
  (List.range (circleSegments + 1)).map fun i : ℕ =>
    (r * Real.cos (2 * Real.pi * i / circleSegments),
     r * Real.sin (2 * Real.pi * i / circleSegments))

/-- csgService.ts lines 20-35: the THREE.Shape contour built for a shape.
JavaScript truthiness for the numeric guards: `undefined` and `0` are falsy,
which `Option.getD 0 ≠ 0` captures exactly.  The polygon branch reads
`points[0][0]` without a length guard; for a present-but-empty array this
throws a TypeError, modelled as `none`.  When no branch matches, the
THREE.Shape stays empty (contour `[]`). -/
def contourOf (sh : BaseShape) : Option (List Point2) :=
  if sh.type = ShapeType.rectangle ∧ sh.width.getD 0 ≠ 0 ∧ sh.height.getD 0 ≠ 0 then
    some (rectContour (sh.width.getD 0) (sh.height.getD 0))
  else if sh.type = ShapeType.circle ∧ sh.radius.getD 0 ≠ 0 then
    some (circleContour (sh.radius.getD 0))
  else if sh.type = ShapeType.polygon ∧ sh.points ≠ none then
    match sh.points.getD [] with
    | [] => none
    | p :: ps => some ((p :: ps) ++ [p])
  else some []

/-- Symbolic geometry object: either an ExtrudeGeometry of a contour at a depth,
a flat ShapeGeometry of a contour (only ever built by the part_000 renderer),
or a baked triangle mesh (parsed geometryData / boolean output). -/
inductive Geom where
  | extrudeGeo : List Point2 → ℝ → Geom
  | shapeGeo : List Point2 → Geom
  | mesh : Solid → Geom

/-- Projects the baked triangle soup out of a geometry.  In performCSG the
normalizer only ever reads the geometry of an evaluator output brush, which is
always a `Geom.mesh`; the other constructors never reach it. -/
def Geom.solid : Geom → Solid
  | .mesh s => s
  | .extrudeGeo _ _ => []
  | .shapeGeo _ => []

/-- csgService.ts lines 13-41: geometry for the CSG path.  A custom shape with
geometryData is parsed directly; everything else is the contour extruded at the
shape's extrusionDepth (always ExtrudeGeometry, even at depth 0). -/
def csgGeometry (sh : BaseShape) : Except Unit Geom :=
  if sh.type = ShapeType.custom ∧ sh.geometryData ≠ none then
    Except.ok (Geom.mesh (sh.geometryData.getD []))
  else
    match contourOf sh with
    | none => Except.error ()
    | some c => Except.ok (Geom.extrudeGeo c sh.extrusionDepth)

/- ------------------------------------------------------------------ -/
/- Display geometry (src/unnamed/part_000 and part_001).               -/
/- ------------------------------------------------------------------ -/

/-- The renderer contour (both ShapeRenderer revisions): identical to the CSG
contour except the polygon branch also requires `points.length > 0`, so the
renderer never throws on an empty point array. -/
def rendererContour (sh : BaseShape) : List Point2 :=
  if sh.type = ShapeType.rectangle ∧ sh.width.getD 0 ≠ 0 ∧ sh.height.getD 0 ≠ 0 then
    rectContour (sh.width.getD 0) (sh.height.getD 0)
  else if sh.type = ShapeType.circle ∧ sh.radius.getD 0 ≠ 0 then
    circleContour (sh.radius.getD 0)
  else if sh.type = ShapeType.polygon ∧ sh.points ≠ none ∧ (sh.points.getD []).length > 0 then
    match sh.points.getD [] with
    | [] => []
    | p :: ps => (p :: ps) ++ [p]
  else []

/-- src/unnamed/part_000 lines 19-54: the display geometry of the first
ShapeRenderer revision.  Extrusion is applied only when `extrusionDepth > 0`;
otherwise a flat 2D ShapeGeometry is produced. -/
def renderGeometry000 (sh : BaseShape) : Geom :=
  if sh.type = ShapeType.custom ∧ sh.geometryData ≠ none then
    Geom.mesh (sh.geometryData.getD [])
  else if 0 < sh.extrusionDepth then
    Geom.extrudeGeo (rendererContour sh) sh.extrusionDepth
  else
    Geom.shapeGeo (rendererContour sh)

/-- src/unnamed/part_001 lines 144-175: the display geometry of the second
ShapeRenderer revision, which always uses ExtrudeGeometry, even at depth 0. -/
def renderGeometry001 (sh : BaseShape) : Geom :=
  if sh.type = ShapeType.custom ∧ sh.geometryData ≠ none then
    Geom.mesh (sh.geometryData.getD [])
  else
    Geom.extrudeGeo (rendererContour sh) sh.extrusionDepth

/- ------------------------------------------------------------------ -/
/- The boolean pipeline (csgService.ts performCSG).                    -/
/- ------------------------------------------------------------------ -/

/-- A three-bvh-csg Brush: a geometry plus the world matrix set at
csgService.ts lines 43-71 (material and matrixAutoUpdate are display-only
attributes and are not modelled). -/
structure Brush where
  geom : Geom
  matrix : Mat4

/-- csgService.ts lines 12-75: one element of `shapes.map(...)` — geometry
construction then the world transform.  The TypeError of the polygon branch
propagates as `Except.error`. -/
def mkBrush (sh : BaseShape) : Except Unit Brush :=
  match csgGeometry sh with
  | .error er => .error er
  | .ok g => .ok ⟨g, worldMatrix sh⟩

/-- The full `shapes.map(...)` of csgService.ts line 12: the first exception
thrown aborts the whole map. -/
def mkBrushes : List BaseShape → Except Unit (List Brush)
  | [] => .ok []
  | sh :: rest =>
    match mkBrush sh with
    | .error er => .error er
    | .ok b =>
      match mkBrushes rest with
      | .error er => .error er
      | .ok bs => .ok (b :: bs)

/-- csgService.ts lines 77-89: the evaluation loop.  `acc` plays the role of
`resultBrush`; each step overwrites it with a new brush holding the evaluator's
output geometry (the result brush of three-bvh-csg carries the identity
matrix — the output geometry is baked in world space). -/
def csgLoop (e : Brush → Brush → CSGMode → Solid) (mode : CSGMode) :
    Brush → List Brush → Brush
  | acc, [] => acc
  | acc, b :: bs => csgLoop e mode ⟨Geom.mesh (e acc b mode), Mat4.one⟩ bs

/-- The smallest axis-aligned box containing all vertices, as its center
(BufferGeometry.computeBoundingBox + Box3.getCenter; an empty geometry gives an
empty box, whose getCenter is the zero vector). -/
def bboxCenter : Solid → Vec3
  | [] => (0, 0, 0)
  | v :: vs =>
    (((vs.map Prod.fst).foldl min v.1 + (vs.map Prod.fst).foldl max v.1) / 2,
     ((vs.map fun u => u.2.1).foldl min v.2.1 + (vs.map fun u => u.2.1).foldl max v.2.1) / 2,
     ((vs.map fun u => u.2.2).foldl min v.2.2 + (vs.map fun u => u.2.2).foldl max v.2.2) / 2)

/-- BufferGeometry.translate: move every vertex by `d`. -/
def translateSolid (s : Solid) (d : Vec3) : Solid :=
  s.map fun v => v + d

/-- csgService.ts lines 91-111: the normalizer — compute the bounding-box
center, translate the geometry by its negation, and wrap the result as a new
custom shape recording that center as its position. -/
def finalize (fid : String) (op : Op) (firstColor : String) (raw : Solid) : BaseShape :=
  let center := bboxCenter raw
  { id := fid
    name := "CSG " ++ opName op
    type := ShapeType.custom
    position := center
    rotation := (0, 0, 0)
    color := firstColor
    extrusionDepth := 0
    visible := true
    points := none
    width := none
    height := none
    radius := none
    geometryData := some (translateSolid raw (-center)) }

/-- csgService.ts performCSG.  `e` is the external three-bvh-csg evaluator and
`fid` the uuidv4() value.  `Except.ok none` is the `return null` for fewer than
two shapes; `Except.error ()` is a thrown TypeError. -/
def performCSG (e : Brush → Brush → CSGMode → Solid) (fid : String)
    (shapes : List BaseShape) (op : Op) : Except Unit (Option BaseShape) :=
  if shapes.length < 2 then .ok none
  else
    match shapes with
    | [] => .ok none
    | s0 :: rest =>
      match mkBrush s0 with
      | .error er => .error er
      | .ok b0 =>
        match mkBrushes rest with
        | .error er => .error er
        | .ok bs =>
          .ok (some (finalize fid op s0.color (Geom.solid (csgLoop e (modeOf op) b0 bs).geom)))

/- ------------------------------------------------------------------ -/
/- The store (src/store.ts).                                           -/
/- ------------------------------------------------------------------ -/

/-- The store slice performBoolean touches (mode, view, drawingPoints and
isDragging are never read or written by it). -/
structure AppState where
  shapes : List BaseShape
  selectedIds : List String

/-- store.ts lines 51-53: selected ids mapped to their shapes, keeping
selection order and dropping ids that match no shape. -/
def orderedSelection (st : AppState) : List BaseShape :=
  st.selectedIds.filterMap fun i => st.shapes.find? fun s => s.id == i

/-- store.ts lines 45-68: performBoolean.  The set() call only happens when
performCSG returned a shape; a thrown exception propagates to the caller
(`Except.error`), leaving the store untouched. -/
def performBoolean (e : Brush → Brush → CSGMode → Solid) (fid : String)
    (st : AppState) (op : Op) : Except Unit AppState :=
  let sel := orderedSelection st
  if sel.length < 2 then .ok st
  else
    match performCSG e fid sel op with
    | .error er => .error er
    | .ok none => .ok st
    | .ok (some r) =>
      .ok { shapes := (st.shapes.filter fun s => !(st.selectedIds.contains s.id)) ++ [r]
            selectedIds := [r.id] }

/-- A shape with its id blanked, for stating id-independence of the pipeline. -/
def stripId (sh : BaseShape) : BaseShape :=
  { sh with id := "" }

/-- Id of a successful performCSG outcome (used to separate two outcomes). -/
def resultId : Except Unit (Option BaseShape) → String
  | .ok (some r) => r.id
  | _ => ""

/- ------------------------------------------------------------------ -/
/- Concrete test fixtures.                                             -/
/- ------------------------------------------------------------------ -/

/-- A degenerate stand-in for the external evaluator that returns the empty
solid, as the real evaluator does when a boolean removes everything. -/
def e0 : Brush → Brush → CSGMode → Solid := fun _ _ _ => []

/-- A valid 1x1 rectangle at the origin with depth 1. -/
def rectOne : BaseShape :=
  { id := "r1", name := "Rect 1", type := ShapeType.rectangle
    position := (0, 0, 0), rotation := (0, 0, 0), color := "red"
    extrusionDepth := 1, visible := true, points := none
    width := some 1, height := some 1, radius := none, geometryData := none }

/-- A valid 2x2 rectangle away from the origin with depth 1. -/
def rectTwo : BaseShape :=
  { id := "r2", name := "Rect 2", type := ShapeType.rectangle
    position := (3, 0, 0), rotation := (0, 0, 0), color := "blue"
    extrusionDepth := 1, visible := true, points := none
    width := some 2, height := some 2, radius := none, geometryData := none }

/-- A rectangle with negative width and height: malformed per the spec. -/
def badRect : BaseShape :=
  { id := "rb", name := "Bad Rect", type := ShapeType.rectangle
    position := (0, 0, 0), rotation := (0, 0, 0), color := "red"
    extrusionDepth := 1, visible := true, points := none
    width := some (-1), height := some (-1), radius := none, geometryData := none }

/-- A valid unit circle with depth 1. -/
def circleOne : BaseShape :=
  { id := "c1", name := "Circle 1", type := ShapeType.circle
    position := (0, 0, 0), rotation := (0, 0, 0), color := "red"
    extrusionDepth := 1, visible := true, points := none
    width := none, height := none, radius := some 1, geometryData := none }

/-- A valid 1x1 rectangle with extrusion depth exactly 0. -/
def flatRect : BaseShape :=
  { id := "rf", name := "Flat Rect", type := ShapeType.rectangle
    position := (0, 0, 0), rotation := (0, 0, 0), color := "red"
    extrusionDepth := 0, visible := true, points := none
    width := some 1, height := some 1, radius := none, geometryData := none }

/-- A store state holding one shape with nothing selected. -/
def stOne : AppState := { shapes := [rectOne], selectedIds := [] }

/-- The brush performCSG builds for rectOne. -/
def rectOneBrush : Brush :=
  ⟨Geom.extrudeGeo (rectContour 1 1) 1, worldMatrix rectOne⟩

/-- The brush performCSG builds for rectTwo. -/
def rectTwoBrush : Brush :=
  ⟨Geom.extrudeGeo (rectContour 2 2) 1, worldMatrix rectTwo⟩

/- ------------------------------------------------------------------ -/
/- Helper lemmas.                                                      -/
/- ------------------------------------------------------------------ -/

theorem Mat4.mul_one (m : Mat4) : m.mul Mat4.one = m := by
  cases m
  simp [Mat4.mul, Mat4.one]

theorem Mat4.one_mul (m : Mat4) : Mat4.one.mul m = m := by
  cases m
  simp [Mat4.mul, Mat4.one]

theorem quatOfEuler_zero : quatOfEuler (0, 0, 0) = ⟨0, 0, 0, 1⟩ := by
  simp [quatOfEuler]

theorem composeMat_zero_id : composeMat (0, 0, 0) ⟨0, 0, 0, 1⟩ (1, 1, 1) = Mat4.one := by
  simp [composeMat, Mat4.one]

theorem applyMat4_translation (p v : Vec3) :
    applyMat4 (composeMat p ⟨0, 0, 0, 1⟩ (1, 1, 1)) v = v + p := by
  obtain ⟨px, py, pz⟩ := p
  obtain ⟨vx, vy, vz⟩ := v
  simp [applyMat4, composeMat, Prod.mk_add_mk]

theorem csgLoop_eq_foldl (e : Brush → Brush → CSGMode → Solid) (mode : CSGMode)
    (bs : List Brush) (acc : Brush) :
    csgLoop e mode acc bs =
      bs.foldl (fun a b => ⟨Geom.mesh (e a b mode), Mat4.one⟩) acc := by
  induction bs generalizing acc with
  | nil => rfl
  | cons b rest ih => simp only [csgLoop, List.foldl_cons]; exact ih _

theorem foldl_min_map_add (l : List ℝ) (a c : ℝ) :
    (l.map fun x => x + c).foldl min (a + c) = l.foldl min a + c := by
  induction l generalizing a with
  | nil => simp
  | cons x xs ih =>
    simp only [List.map_cons, List.foldl_cons, min_add_add_right]
    exact ih (min a x)

theorem foldl_max_map_add (l : List ℝ) (a c : ℝ) :
    (l.map fun x => x + c).foldl max (a + c) = l.foldl max a + c := by
  induction l generalizing a with
  | nil => simp
  | cons x xs ih =>
    simp only [List.map_cons, List.foldl_cons, max_add_add_right]
    exact ih (max a x)

theorem bboxCenter_translate (v : Vec3) (vs : List Vec3) (d : Vec3) :
    bboxCenter (translateSolid (v :: vs) d) = bboxCenter (v :: vs) + d := by
  obtain ⟨dx, dy, dz⟩ := d
  obtain ⟨vx, vy, vz⟩ := v
  have hmap1 : ((vs.map fun u => u + (dx, dy, dz)).map Prod.fst)
      = (vs.map Prod.fst).map fun x => x + dx := by
    simp [List.map_map, Function.comp_def, Prod.fst_add]
  have hmap2 : ((vs.map fun u => u + (dx, dy, dz)).map fun u => u.2.1)
      = (vs.map fun u => u.2.1).map fun x => x + dy := by
    simp [List.map_map, Function.comp_def, Prod.snd_add, Prod.fst_add]
  have hmap3 : ((vs.map fun u => u + (dx, dy, dz)).map fun u => u.2.2)
      = (vs.map fun u => u.2.2).map fun x => x + dz := by
    simp [List.map_map, Function.comp_def, Prod.snd_add]
  simp only [translateSolid, List.map_cons, bboxCenter, hmap1, hmap2, hmap3,
    Prod.mk_add_mk, Prod.fst_add, Prod.snd_add, foldl_min_map_add, foldl_max_map_add]
  refine Prod.ext ?_ (Prod.ext ?_ ?_) <;> simp <;> ring

theorem bboxCenter_recenter (s : Solid) :
    bboxCenter (translateSolid s (-(bboxCenter s))) = (0, 0, 0) := by
  cases s with
  | nil => simp [translateSolid, bboxCenter]
  | cons v vs =>
    rw [bboxCenter_translate]
    have h0 : bboxCenter (v :: vs) + -(bboxCenter (v :: vs)) = 0 := by abel
    exact h0

theorem translate_back (s : Solid) (c : Vec3) :
    (translateSolid s (-c)).map (fun v => v + c) = s := by
  simp only [translateSolid, List.map_map, Function.comp_def]
  have h : (fun v : Vec3 => v + -c + c) = fun v => v := by
    funext v
    abel
  simp [h]

theorem contourOf_eq_none_iff (sh : BaseShape) :
    contourOf sh = none ↔ sh.type = ShapeType.polygon ∧ sh.points = some [] := by
  unfold contourOf
  split_ifs with h1 h2 h3
  · simp [h1.1]
  · simp [h2.1]
  · obtain ⟨ht, hp⟩ := h3
    cases hpts : sh.points with
    | none => exact absurd hpts hp
    | some l =>
      cases l with
      | nil => simp [hpts, ht]
      | cons p ps => simp [hpts]
  · refine iff_of_false (by simp) ?_
    rintro ⟨hp, hq⟩
    exact h3 ⟨hp, by simp [hq]⟩

theorem csgGeometry_error_iff (sh : BaseShape) :
    csgGeometry sh = .error () ↔ sh.type = ShapeType.polygon ∧ sh.points = some [] := by
  unfold csgGeometry
  split_ifs with h1
  · refine iff_of_false (by simp) ?_
    rintro ⟨hp, _⟩
    rw [h1.1] at hp
    exact absurd hp (by simp)
  · cases hc : contourOf sh with
    | none => simpa using (contourOf_eq_none_iff sh).mp hc
    | some c =>
      refine iff_of_false (by simp) ?_
      intro hr
      rw [(contourOf_eq_none_iff sh).mpr hr] at hc
      exact Option.noConfusion hc

theorem mkBrush_rectOne : mkBrush rectOne = .ok rectOneBrush := by
  simp [mkBrush, csgGeometry, contourOf, rectOne, rectOneBrush]

theorem mkBrush_rectTwo : mkBrush rectTwo = .ok rectTwoBrush := by
  simp [mkBrush, csgGeometry, contourOf, rectTwo, rectTwoBrush]

theorem mkBrushes_rectTwo : mkBrushes [rectTwo] = .ok [rectTwoBrush] := by
  simp [mkBrushes, mkBrush_rectTwo]

theorem performCSG_cons_ok (e : Brush → Brush → CSGMode → Solid) (fid : String) (op : Op)
    (s0 s1 : BaseShape) (rest : List BaseShape) (b0 : Brush) (bs : List Brush)
    (hb0 : mkBrush s0 = .ok b0) (hbs : mkBrushes (s1 :: rest) = .ok bs) :
    performCSG e fid (s0 :: s1 :: rest) op =
      .ok (some (finalize fid op s0.color (Geom.solid (csgLoop e (modeOf op) b0 bs).geom))) := by
  simp only [performCSG]
  rw [if_neg (by simp)]
  simp only [hb0, hbs]

theorem performCSG_ok_inv (e : Brush → Brush → CSGMode → Solid) (fid : String) (op : Op)
    (shapes : List BaseShape) (R : BaseShape)
    (h : performCSG e fid shapes op = .ok (some R)) :
    ∃ s0 rest b0 bs, shapes = s0 :: rest ∧ mkBrush s0 = .ok b0 ∧ mkBrushes rest = .ok bs ∧
      R = finalize fid op s0.color (Geom.solid (csgLoop e (modeOf op) b0 bs).geom) := by
  cases shapes with
  | nil => simp [performCSG] at h
  | cons s0 rest =>
    simp only [performCSG] at h
    split_ifs at h with hl
    · simp at h
    · cases hb : mkBrush s0 with
      | error er => rw [hb] at h; simp at h
      | ok b0 =>
        rw [hb] at h
        cases hbs : mkBrushes rest with
        | error er => rw [hbs] at h; simp at h
        | ok bs =>
          rw [hbs] at h
          simp only [Except.ok.injEq, Option.some.injEq] at h
          exact ⟨s0, rest, b0, bs, rfl, hb, hbs, h.symm⟩

theorem perform_e0_eval (fid : String) (op : Op) :
    performCSG e0 fid [rectOne, rectTwo] op = .ok (some (finalize fid op "red" [])) := by
  rw [performCSG_cons_ok e0 fid op rectOne rectTwo [] rectOneBrush [rectTwoBrush]
    mkBrush_rectOne mkBrushes_rectTwo]
  simp [csgLoop, e0, Geom.solid, rectOne]

/- ------------------------------------------------------------------ -/
/- Claim theorems.                                                     -/
/- ------------------------------------------------------------------ -/

/-- C1: for every ordered list of at least 2 shapes and every operation, the
boolean evaluation folds strictly left-to-right — the result is initialized to
the first shape's brush and each subsequent brush is combined into the
accumulator in list order; in particular for Subtract the loop computes
(first minus second) minus third, and so on. -/
theorem C1_fold_left_to_right (e : Brush → Brush → CSGMode → Solid) (fid : String) (op : Op)
    (s0 s1 : BaseShape) (rest : List BaseShape) (b0 : Brush) (bs : List Brush)
    (hb0 : mkBrush s0 = .ok b0) (hbs : mkBrushes (s1 :: rest) = .ok bs) :
    performCSG e fid (s0 :: s1 :: rest) op =
      .ok (some (finalize fid op s0.color (Geom.solid
        (bs.foldl (fun acc b => ⟨Geom.mesh (e acc b (modeOf op)), Mat4.one⟩) b0).geom)))
    ∧ (∀ bA bB bC : Brush, csgLoop e (modeOf Op.subtract) bA [bB, bC] =
        ⟨Geom.mesh (e ⟨Geom.mesh (e bA bB CSGMode.SUBTRACTION), Mat4.one⟩ bC
          CSGMode.SUBTRACTION), Mat4.one⟩) := by
  constructor
  · rw [performCSG_cons_ok e fid op s0 s1 rest b0 bs hb0 hbs, csgLoop_eq_foldl]
  · intro bA bB bC
    simp [csgLoop, modeOf]

/-- Witness for C1 at the concrete run on rectOne and rectTwo with the empty
evaluator. -/
theorem C1_witness :
    performCSG e0 "w1" [rectOne, rectTwo] Op.union =
      .ok (some (finalize "w1" Op.union rectOne.color (Geom.solid
        (([rectTwoBrush].foldl (fun acc b => ⟨Geom.mesh (e0 acc b (modeOf Op.union)), Mat4.one⟩)
          rectOneBrush)).geom)))
    ∧ csgLoop e0 (modeOf Op.subtract) rectOneBrush [rectTwoBrush, rectTwoBrush] =
        ⟨Geom.mesh (e0 ⟨Geom.mesh (e0 rectOneBrush rectTwoBrush CSGMode.SUBTRACTION), Mat4.one⟩
          rectTwoBrush CSGMode.SUBTRACTION), Mat4.one⟩ := by
  have h := C1_fold_left_to_right e0 "w1" Op.union rectOne rectTwo [] rectOneBrush [rectTwoBrush]
    mkBrush_rectOne mkBrushes_rectTwo
  exact ⟨h.1, h.2 rectOneBrush rectTwoBrush rectTwoBrush⟩

/-- C2: every shape's resolved world matrix is the user transform (built from
its Euler rotation via quaternion and its position, with unit scale) composed
after the kind's base orientation: a +pi/2 rotation about X for the parametric
kinds and the identity for custom; with identity rotation and zero position the
world matrix equals exactly the base orientation matrix. -/
theorem C2_world_matrix_composition (sh : BaseShape) :
    worldMatrix sh = (userMatrix sh).mul (inherentRot sh.type)
    ∧ userMatrix sh = composeMat sh.position (quatOfEuler sh.rotation) (1, 1, 1)
    ∧ inherentRot ShapeType.rectangle = makeRotationX (Real.pi / 2)
    ∧ inherentRot ShapeType.circle = makeRotationX (Real.pi / 2)
    ∧ inherentRot ShapeType.polygon = makeRotationX (Real.pi / 2)
    ∧ inherentRot ShapeType.custom = Mat4.one
    ∧ (sh.rotation = (0, 0, 0) → sh.position = (0, 0, 0) →
        worldMatrix sh = inherentRot sh.type) := by
  refine ⟨rfl, rfl, by simp [inherentRot], by simp [inherentRot], by simp [inherentRot],
    by simp [inherentRot], ?_⟩
  intro hrot hpos
  rw [worldMatrix, userMatrix, hrot, hpos, quatOfEuler_zero, composeMat_zero_id, Mat4.one_mul]

/-- Witness for C2 at rectOne, which has identity rotation and zero position. -/
theorem C2_witness :
    worldMatrix rectOne = (userMatrix rectOne).mul (inherentRot rectOne.type)
    ∧ worldMatrix rectOne = inherentRot rectOne.type :=
  ⟨(C2_world_matrix_composition rectOne).1,
   (C2_world_matrix_composition rectOne).2.2.2.2.2.2 rfl rfl⟩

/-- C3: every successful boolean evaluation returns a new custom-kind shape
whose geometry is translated so that its bounding-box center is the local
origin, whose position records the former center, with identity rotation, the
supplied fresh id, extrusionDepth 0, the first operand's color and
visible = true. -/
theorem C3_result_shape_normalized (e : Brush → Brush → CSGMode → Solid) (fid : String)
    (op : Op) (s0 : BaseShape) (rest : List BaseShape) (R : BaseShape)
    (h : performCSG e fid (s0 :: rest) op = .ok (some R)) :
    R.id = fid ∧ R.type = ShapeType.custom ∧ R.rotation = (0, 0, 0)
    ∧ R.extrusionDepth = 0 ∧ R.color = s0.color ∧ R.visible = true
    ∧ R.name = "CSG " ++ opName op
    ∧ ∃ raw : Solid, R.position = bboxCenter raw
        ∧ R.geometryData = some (translateSolid raw (-(bboxCenter raw)))
        ∧ bboxCenter (translateSolid raw (-(bboxCenter raw))) = (0, 0, 0) := by
  obtain ⟨t0, trest, b0, bs, heq, hb0, hbs, hR⟩ := performCSG_ok_inv e fid op (s0 :: rest) R h
  injection heq with h1 h2
  subst h1
  subst h2
  subst hR
  refine ⟨rfl, rfl, rfl, rfl, rfl, rfl, rfl,
    Geom.solid (csgLoop e (modeOf op) b0 bs).geom, rfl, rfl, ?_⟩
  exact bboxCenter_recenter _

/-- Witness for C3 at the concrete run on rectOne and rectTwo with the empty
evaluator. -/
theorem C3_witness :
    (finalize "w3" Op.union "red" []).rotation = (0, 0, 0)
    ∧ (finalize "w3" Op.union "red" []).extrusionDepth = 0
    ∧ (finalize "w3" Op.union "red" []).visible = true := by
  have h := C3_result_shape_normalized e0 "w3" Op.union rectOne [rectTwo]
    (finalize "w3" Op.union "red" []) (perform_e0_eval "w3" Op.union)
  exact ⟨h.2.2.1, h.2.2.2.1, h.2.2.2.2.2.1⟩

/-- C4: with fewer than 2 shapes the evaluation returns the distinguishable
failure value (Except.ok none, the source's explicit null), and the store's
shape collection is never mutated unless the evaluation returns a shape. -/
theorem C4_insufficient_operands_no_mutation (e : Brush → Brush → CSGMode → Solid)
    (fid : String) (op : Op) (shapes : List BaseShape) (st : AppState) :
    (shapes.length < 2 → performCSG e fid shapes op = .ok none)
    ∧ ((orderedSelection st).length < 2 → performBoolean e fid st op = .ok st)
    ∧ (performCSG e fid (orderedSelection st) op = .ok none →
        performBoolean e fid st op = .ok st)
    ∧ (∀ st2 : AppState, performBoolean e fid st op = .ok st2 →
        st2 = st ∨ ∃ r, performCSG e fid (orderedSelection st) op = .ok (some r)) := by
  refine ⟨?_, ?_, ?_, ?_⟩
  · intro h
    simp only [performCSG]
    rw [if_pos h]
  · intro h
    simp only [performBoolean]
    rw [if_pos h]
  · intro h
    simp only [performBoolean]
    split_ifs with hl
    · rfl
    · rw [h]
  · intro st2 h
    simp only [performBoolean] at h
    split_ifs at h with hl
    · simp only [Except.ok.injEq] at h
      exact Or.inl h.symm
    · cases hres : performCSG e fid (orderedSelection st) op with
      | error er => rw [hres] at h; simp at h
      | ok o =>
        cases o with
        | none =>
          rw [hres] at h
          simp only [Except.ok.injEq] at h
          exact Or.inl h.symm
        | some r => exact Or.inr ⟨r, rfl⟩

/-- Witness for C4 at a one-shape list and a store with nothing selected. -/
theorem C4_witness :
    performCSG e0 "w4" [rectOne] Op.union = .ok none
    ∧ performBoolean e0 "w4" stOne Op.union = .ok stOne := by
  have h := C4_insufficient_operands_no_mutation e0 "w4" Op.union [rectOne] stOne
  exact ⟨h.1 (by simp), h.2.1 (by simp [orderedSelection, stOne])⟩

/-- C5 counterexample: a rectangle with width and height -1 (both ≤ 0, so
malformed per the claim) is tessellated silently into an extruded mesh instead
of failing with a typed InvalidProfile error. -/
theorem C5_counterexample :
    badRect.width = some (-1) ∧ ((-1 : ℝ) ≤ 0)
    ∧ csgGeometry badRect = .ok (Geom.extrudeGeo (rectContour (-1) (-1)) 1) := by
  refine ⟨rfl, by norm_num, ?_⟩
  simp [csgGeometry, contourOf, badRect]

/-- C5 amended: the tessellation path performs no validation at all — it fails
(with an untyped thrown TypeError, not an InvalidProfile value) exactly when a
polygon's point array is present but empty; every other profile, including
rectangles and circles with non-positive dimensions, silently produces a
geometry. -/
theorem C5_no_validation (sh : BaseShape) :
    csgGeometry sh = .error () ↔ sh.type = ShapeType.polygon ∧ sh.points = some [] :=
  csgGeometry_error_iff sh

/-- C6 counterexample: when the boolean evaluator output has zero triangles
(empty solid), performCSG still returns a shape (with empty geometry, centered
at the origin) rather than signalling a typed EmptyResult failure. -/
theorem C6_counterexample :
    Geom.solid (csgLoop e0 (modeOf Op.subtract) rectOneBrush [rectTwoBrush]).geom = []
    ∧ performCSG e0 "x6" [rectOne, rectTwo] Op.subtract =
        .ok (some (finalize "x6" Op.subtract "red" [])) :=
  ⟨by simp [csgLoop, e0, Geom.solid], perform_e0_eval "x6" Op.subtract⟩

/-- C6 amended: a zero-triangle boolean result is not signalled; performCSG
wraps it as a degenerate custom shape with empty geometry, position (0,0,0)
(the center of the empty bounding box) and empty geometryData. -/
theorem C6_empty_result_returned (e : Brush → Brush → CSGMode → Solid) (fid : String) (op : Op)
    (s0 s1 : BaseShape) (rest : List BaseShape) (b0 : Brush) (bs : List Brush)
    (hb0 : mkBrush s0 = .ok b0) (hbs : mkBrushes (s1 :: rest) = .ok bs)
    (hraw : Geom.solid (csgLoop e (modeOf op) b0 bs).geom = []) :
    performCSG e fid (s0 :: s1 :: rest) op = .ok (some (finalize fid op s0.color []))
    ∧ (finalize fid op s0.color []).position = (0, 0, 0)
    ∧ (finalize fid op s0.color []).geometryData = some [] := by
  refine ⟨?_, by simp [finalize, bboxCenter], by simp [finalize, bboxCenter, translateSolid]⟩
  rw [performCSG_cons_ok e fid op s0 s1 rest b0 bs hb0 hbs, hraw]

/-- Witness for C6 at the empty evaluator. -/
theorem C6_witness :
    performCSG e0 "w6" [rectOne, rectTwo] Op.subtract =
      .ok (some (finalize "w6" Op.subtract rectOne.color []))
    ∧ (finalize "w6" Op.subtract rectOne.color []).position = (0, 0, 0) := by
  have h := C6_empty_result_returned e0 "w6" Op.subtract rectOne rectTwo [] rectOneBrush
    [rectTwoBrush] mkBrush_rectOne mkBrushes_rectTwo (by simp [csgLoop, e0, Geom.solid])
  exact ⟨h.1, h.2.1⟩

/-- C7 counterexample: the tessellated circle contour has 24 segments
(25 sample points), not the at-least-32 segments the claim requires. -/
theorem C7_counterexample :
    contourOf circleOne = some (circleContour 1)
    ∧ (circleContour 1).length = 25
    ∧ ¬ (32 ≤ (circleContour 1).length - 1) := by
  have hlen : (circleContour 1).length = 25 := by
    simp only [circleContour, List.length_map, List.length_range]
    norm_num [circleSegments]
  refine ⟨?_, hlen, by rw [hlen]; norm_num⟩
  simp only [contourOf]
  rw [if_neg (by simp [circleOne]), if_pos (by simp [circleOne])]
  simp [circleOne]

/-- C7 amended: for every circle shape with a truthy radius r, the tessellated
contour is the 24-segment polygonal approximation of the circle of radius r
centered at the origin (24 = twice ExtrudeGeometry's default curveSegments of
12); every contour point lies exactly on that circle. -/
theorem C7_circle_contour (sh : BaseShape) (r : ℝ) (ht : sh.type = ShapeType.circle)
    (hr : sh.radius = some r) (h0 : r ≠ 0) :
    contourOf sh = some (circleContour r)
    ∧ (circleContour r).length = circleSegments + 1
    ∧ circleSegments = 24
    ∧ ∀ p ∈ circleContour r, p.1 ^ 2 + p.2 ^ 2 = r ^ 2 := by
  refine ⟨?_, by simp only [circleContour, List.length_map, List.length_range], rfl, ?_⟩
  · simp only [contourOf]
    rw [if_neg (by simp [ht]), if_pos (by simp [ht, hr, h0])]
    simp [hr]
  · intro p hp
    simp only [circleContour, List.mem_map] at hp
    obtain ⟨i, _, rfl⟩ := hp
    calc (r * Real.cos (2 * Real.pi * i / circleSegments)) ^ 2
          + (r * Real.sin (2 * Real.pi * i / circleSegments)) ^ 2
        = r ^ 2 * (Real.sin (2 * Real.pi * i / circleSegments) ^ 2
          + Real.cos (2 * Real.pi * i / circleSegments) ^ 2) := by ring
      _ = r ^ 2 := by rw [Real.sin_sq_add_cos_sq, mul_one]

/-- Witness for C7 at the unit circle. -/
theorem C7_witness :
    contourOf circleOne = some (circleContour 1)
    ∧ (circleContour 1).length = circleSegments + 1 := by
  have h := C7_circle_contour circleOne 1 rfl rfl one_ne_zero
  exact ⟨h.1, h.2.1⟩

/-- C8 counterexample: at extrusion depth exactly 0 the part_000 display path
produces a flat 2D ShapeGeometry while the boolean path extrudes, so the claim
that the extrusion is applied uniformly and identically on both paths fails. -/
theorem C8_counterexample :
    flatRect.extrusionDepth = 0
    ∧ renderGeometry000 flatRect = Geom.shapeGeo (rectContour 1 1)
    ∧ csgGeometry flatRect = .ok (Geom.extrudeGeo (rectContour 1 1) 0)
    ∧ Geom.shapeGeo (rectContour 1 1) ≠ Geom.extrudeGeo (rectContour 1 1) 0 := by
  refine ⟨rfl, ?_, ?_, by simp⟩
  · simp [renderGeometry000, rendererContour, flatRect]
  · simp [csgGeometry, contourOf, flatRect]

/-- C8 amended: the boolean path always extrudes regardless of depth, and so
does the part_001 display revision; but the part_000 display revision extrudes
only for depth > 0 and falls back to a flat ShapeGeometry at depth 0, so the
two paths agree only for positive depth. -/
theorem C8_extrusion_paths (sh : BaseShape) (hnc : sh.type ≠ ShapeType.custom) :
    (0 < sh.extrusionDepth →
      renderGeometry000 sh = Geom.extrudeGeo (rendererContour sh) sh.extrusionDepth)
    ∧ (sh.extrusionDepth = 0 → renderGeometry000 sh = Geom.shapeGeo (rendererContour sh))
    ∧ renderGeometry001 sh = Geom.extrudeGeo (rendererContour sh) sh.extrusionDepth
    ∧ (∀ c, contourOf sh = some c →
        csgGeometry sh = .ok (Geom.extrudeGeo c sh.extrusionDepth)) := by
  have hcc : ¬ (sh.type = ShapeType.custom ∧ sh.geometryData ≠ none) := fun hx => hnc hx.1
  refine ⟨?_, ?_, ?_, ?_⟩
  · intro hd
    simp only [renderGeometry000]
    rw [if_neg hcc, if_pos hd]
  · intro hd
    simp only [renderGeometry000]
    rw [if_neg hcc, if_neg (by rw [hd]; exact lt_irrefl 0)]
  · simp only [renderGeometry001]
    rw [if_neg hcc]
  · intro c hc2
    simp only [csgGeometry]
    rw [if_neg hcc, hc2]

/-- Witness for C8 at rectOne (depth 1) and flatRect (depth 0). -/
theorem C8_witness :
    renderGeometry000 rectOne = Geom.extrudeGeo (rendererContour rectOne) rectOne.extrusionDepth
    ∧ renderGeometry000 flatRect = Geom.shapeGeo (rendererContour flatRect)
    ∧ renderGeometry001 flatRect =
        Geom.extrudeGeo (rendererContour flatRect) flatRect.extrusionDepth
    ∧ csgGeometry flatRect = .ok (Geom.extrudeGeo (rectContour 1 1) flatRect.extrusionDepth) := by
  have h1 := C8_extrusion_paths rectOne (by simp [rectOne])
  have h2 := C8_extrusion_paths flatRect (by simp [flatRect])
  refine ⟨h1.1 (by norm_num [rectOne]), h2.2.1 rfl, h2.2.2.1,
    h2.2.2.2 (rectContour 1 1) ?_⟩
  simp [contourOf, flatRect]

/-- C9 counterexample: two runs of performCSG on equal shape lists and the same
operation but distinct fresh uuids produce unequal results (the ids differ), so
the evaluation is not a function of the shape list and operation alone. -/
theorem C9_counterexample :
    performCSG e0 "a" [rectOne, rectTwo] Op.union ≠
      performCSG e0 "b" [rectOne, rectTwo] Op.union := by
  rw [perform_e0_eval "a" Op.union, perform_e0_eval "b" Op.union]
  intro h
  have hid : ("a" : String) = "b" := by
    have h2 := congrArg resultId h
    simp only [resultId, finalize] at h2
    exact h2
  exact absurd hid (by decide)

/-- C9 amended: the evaluation is deterministic up to the fresh id — for equal
shape lists and operations, two runs agree on success/failure and on every
field of the result except the uuid-generated id. -/
theorem C9_deterministic_up_to_id (e : Brush → Brush → CSGMode → Solid) (f1 f2 : String)
    (shapes : List BaseShape) (op : Op) :
    (performCSG e f1 shapes op).map (Option.map stripId)
      = (performCSG e f2 shapes op).map (Option.map stripId) := by
  cases shapes with
  | nil => rfl
  | cons s0 rest =>
    simp only [performCSG]
    split_ifs with hl
    · rfl
    · cases hb : mkBrush s0 with
      | error er => rfl
      | ok b0 =>
        cases hbs : mkBrushes rest with
        | error er => rfl
        | ok bs => rfl

/-- C10: the recentering step preserves world-space geometry — the returned
shape's translated mesh, placed by the shape's own resolved world matrix
(identity rotation, position at the recorded center), maps back exactly onto
the raw fold output. -/
theorem C10_recentering_preserves_world_geometry (e : Brush → Brush → CSGMode → Solid)
    (fid : String) (op : Op) (s0 : BaseShape) (rest : List BaseShape) (R : BaseShape)
    (h : performCSG e fid (s0 :: rest) op = .ok (some R)) :
    ∃ b0 bs, mkBrush s0 = .ok b0 ∧ mkBrushes rest = .ok bs
      ∧ R.geometryData = some (translateSolid (Geom.solid (csgLoop e (modeOf op) b0 bs).geom)
          (-(bboxCenter (Geom.solid (csgLoop e (modeOf op) b0 bs).geom))))
      ∧ (translateSolid (Geom.solid (csgLoop e (modeOf op) b0 bs).geom)
          (-(bboxCenter (Geom.solid (csgLoop e (modeOf op) b0 bs).geom)))).map
            (applyMat4 (worldMatrix R))
          = Geom.solid (csgLoop e (modeOf op) b0 bs).geom := by
  obtain ⟨t0, trest, b0, bs, heq, hb0, hbs, hR⟩ := performCSG_ok_inv e fid op (s0 :: rest) R h
  injection heq with h1 h2
  subst h1
  subst h2
  subst hR
  set raw := Geom.solid (csgLoop e (modeOf op) b0 bs).geom with hraw
  have hw : worldMatrix (finalize fid op s0.color raw)
      = composeMat (bboxCenter raw) ⟨0, 0, 0, 1⟩ (1, 1, 1) := by
    rw [worldMatrix, userMatrix]
    have ht : (finalize fid op s0.color raw).type = ShapeType.custom := rfl
    have hrot : (finalize fid op s0.color raw).rotation = (0, 0, 0) := rfl
    have hpos : (finalize fid op s0.color raw).position = bboxCenter raw := rfl
    rw [ht, hrot, hpos, quatOfEuler_zero]
    have hone : inherentRot ShapeType.custom = Mat4.one := by simp [inherentRot]
    rw [hone, Mat4.mul_one]
  have hfun : applyMat4 (worldMatrix (finalize fid op s0.color raw))
      = fun v => v + bboxCenter raw := by
    funext v
    rw [hw, applyMat4_translation]
  exact ⟨b0, bs, hb0, hbs, rfl, by rw [hfun, translate_back]⟩

/-- Witness for C10 at the concrete run on rectOne and rectTwo with the empty
evaluator. -/
theorem C10_witness :
    (translateSolid (Geom.solid (csgLoop e0 (modeOf Op.union) rectOneBrush [rectTwoBrush]).geom)
        (-(bboxCenter
          (Geom.solid (csgLoop e0 (modeOf Op.union) rectOneBrush [rectTwoBrush]).geom)))).map
      (applyMat4 (worldMatrix (finalize "wz" Op.union "red" [])))
      = Geom.solid (csgLoop e0 (modeOf Op.union) rectOneBrush [rectTwoBrush]).geom := by
  obtain ⟨b0, bs, hb0, hbs, _, hmap⟩ :=
    C10_recentering_preserves_world_geometry e0 "wz" Op.union rectOne [rectTwo]
      (finalize "wz" Op.union "red" []) (perform_e0_eval "wz" Op.union)
  rw [mkBrush_rectOne] at hb0
  rw [mkBrushes_rectTwo] at hbs
  injection hb0 with hb0
  injection hbs with hbs
  subst hb0
  subst hbs
  exact hmap

end Vectrude
